import Mathlib

/-!
Shallow embedding of `src/app.ts` (a minimal proactive Teams bot).

The bot keeps two process-wide in-memory containers:
  * `storage` (a `LocalStorage`) mapping a conversation id to a mutable
    `ConversationState` record holding a counter, and
  * `conversationReferences` (a JS `Map`) mapping a conversation id to the
    `ConversationReference` needed to address proactive sends.

Both containers are modelled as association lists keyed by strings, with
first-match lookup, replace-or-append insertion and full removal on delete,
matching JS `Map`/`LocalStorage` semantics on their reachable (duplicate-free)
states.  The message handler (`app.on("message")`), the install handler
(`app.on("install.add")`) and the `POST /api/notify` HTTP handler are embedded
as pure state-passing functions.  The external send primitive
(`app.http.send`) is a parameter returning `Except`, so that a throwing send
is an `error` result.  JS truthiness on the string-typed request fields is
modelled by `isTruthyStr` (absent or empty string is falsy).
-/

namespace ProactiveBot

/-- First-match lookup in an association list, standing in for `Map.get` /
`LocalStorage.get` in `src/app.ts`. -/
def mapGet {α : Type} (k : String) : List (String × α) → Option α
  | [] => none
  | e :: rest => if e.1 = k then some e.2 else mapGet k rest

/-- Replace-or-append insertion, standing in for `Map.set` /
`LocalStorage.set`: an existing binding is overwritten in place, a new key is
appended (JS `Map` preserves insertion order). -/
def mapSet {α : Type} (k : String) (v : α) : List (String × α) → List (String × α)
  | [] => [(k, v)]
  | e :: rest => if e.1 = k then (k, v) :: rest else e :: mapSet k v rest

/-- Removal of a key, standing in for `Map.delete` / `LocalStorage.delete`. -/
def mapDelete {α : Type} (k : String) (m : List (String × α)) : List (String × α) :=
  m.filter (fun e => e.1 != k)

/-- The keys in order, standing in for `Array.from(map.keys())`. -/
def mapKeys {α : Type} (m : List (String × α)) : List String :=
  m.map Prod.fst

/-- The fields of a Teams conversation account that `src/app.ts` reads
(`ref.conversation.id`, `ref.conversation?.conversationType`). -/
structure ConversationAccount where
  id : String
  conversationType : Option String
  deriving Repr, DecidableEq

/-- The fields of a cached `ConversationReference` that `src/app.ts` reads:
the conversation account and the service URL.  The spread copies
`{...ref, conversation: {...ref.conversation, id: ...}}` preserve every other
field, so restricting to the read fields loses nothing the handlers observe. -/
structure ConversationReference where
  conversation : ConversationAccount
  serviceUrl : String
  deriving Repr, DecidableEq

/-- Per-conversation state: `interface ConversationState { count: number }`. -/
structure ConversationState where
  count : Nat
  deriving Repr, DecidableEq

/-- The part of an inbound activity the handlers read besides the
mention-stripped text: the conversation id, plus its JSON serialization
(`JSON.stringify(activity)`), kept opaque and used only by `/diag`. -/
structure Activity where
  conversationId : String
  json : String
  deriving Repr, DecidableEq

/-- The process-wide mutable state: the `LocalStorage` of conversation states
and the `Map` of conversation references. -/
structure AppState where
  storage : List (String × ConversationState)
  refs : List (String × ConversationReference)
  deriving Repr, DecidableEq

/-- `getConversationState` from `src/app.ts`: fetch the stored state, or
initialize it to `{count: 0}` and store it.  Returns the state together with
the (possibly extended) storage; in the source the returned record aliases
the stored one, which the functional embedding renders by writing updated
records back to the returned storage. -/
def getConversationState (conversationId : String)
    (storage : List (String × ConversationState)) :
    ConversationState × List (String × ConversationState) :=
  match mapGet conversationId storage with
  | some st => (st, storage)
  | none => (⟨0⟩, mapSet conversationId ⟨0⟩ storage)

/-- The `app.on("install.add")` handler: cache the conversation reference
under the activity conversation id.  (The `console.log` calls are pure
output and are dropped.) -/
def installAdd (conversationId : String) (ref : ConversationReference)
    (s : AppState) : AppState :=
  { s with refs := mapSet conversationId ref s.refs }

/-- The `app.on("message")` handler: upsert the conversation reference, then
dispatch on the mention-stripped text (`stripMentionsText(activity)` is a
library call, so the stripped text is taken as the input).  Returns the new
app state and the reply text passed to `context.send`.  The echo branch
executes `state.count++` on the record aliasing the stored one, rendered here
as writing the incremented record back to storage. -/
def handleMessage (nodeVersion : String) (activity : Activity) (text : String)
    (ref : ConversationReference) (s : AppState) : AppState × String :=
  let refs := mapSet activity.conversationId ref s.refs
  if text = "/reset" then
    ({ storage := mapDelete activity.conversationId s.storage, refs := refs },
     "Ok I\x27ve deleted the current conversation state.")
  else if text = "/count" then
    let p := getConversationState activity.conversationId s.storage
    ({ storage := p.2, refs := refs }, "The count is " ++ toString p.1.count)
  else if text = "/diag" then
    ({ s with refs := refs }, activity.json)
  else if text = "/state" then
    let p := getConversationState activity.conversationId s.storage
    ({ storage := p.2, refs := refs },
     "\x7b\"count\":" ++ toString p.1.count ++ "\x7d")
  else if text = "/runtime" then
    ({ s with refs := refs },
     "\x7b\"nodeversion\":\"" ++ nodeVersion ++ "\",\"sdkversion\":\"2.0.0\"\x7d")
  else
    let p := getConversationState activity.conversationId s.storage
    let newCount := p.1.count + 1
    ({ storage := mapSet activity.conversationId ⟨newCount⟩ p.2, refs := refs },
     "[" ++ toString newCount ++ "] you said: " ++ text)

/-- A mention item from the `POST /api/notify` body: `{ id, name }`. -/
structure Mention where
  id : String
  name : String
  deriving Repr, DecidableEq

/-- A mention entity attached to the outbound activity:
`{ type: "mention", text: "<at>NAME</at>", mentioned: { id, name } }`. -/
structure MentionEntity where
  type : String
  text : String
  mentioned : Mention
  deriving Repr, DecidableEq

/-- The outbound activity parameters the handler builds: the message text
plus optional mention entities. -/
structure ActivityParams where
  text : String
  entities : Option (List MentionEntity)
  deriving Repr, DecidableEq

/-- `toActivityParams(message)` on a plain string: an activity with that text
and no entities. -/
def toActivityParams (message : String) : ActivityParams :=
  { text := message, entities := none }

/-- The payload construction in the `POST /api/notify` try-block:
`toActivityParams(message)`, then, when `mentions` is a non-empty array,
`activityParams.entities = mentions.map(...)`. -/
def buildActivityParams (message : String) (mentions : Option (List Mention)) :
    ActivityParams :=
  let base := toActivityParams message
  match mentions with
  | some l =>
    if l.length > 0 then
      { base with entities := some (l.map (fun m =>
          { type := "mention", text := "<at>" ++ m.name ++ "</at>",
            mentioned := { id := m.id, name := m.name } })) }
    else base
  | none => base

/-- The thread-scoped copy of a cached reference built when `replyToId` is
truthy: every field of `ref` is kept except that the conversation id becomes
`` `${ref.conversation.id};messageid=${replyToId}` ``. -/
def threadRefOf (ref : ConversationReference) (replyToId : String) :
    ConversationReference :=
  { ref with conversation :=
      { ref.conversation with
        id := ref.conversation.id ++ ";messageid=" ++ replyToId } }

/-- The result of a successful `app.http.send`: the delivered activity id. -/
structure SendResult where
  id : String
  deriving Repr, DecidableEq

/-- A thrown send failure: `err.message` may be absent (`none`) or any
string, empty included. -/
structure SendErr where
  message : Option String
  deriving Repr, DecidableEq

/-- `err.message || "Failed to send message"`: the message when truthy, the
fallback otherwise. -/
def errMessageOr (e : SendErr) (fallback : String) : String :=
  match e.message with
  | some s => if s = "" then fallback else s
  | none => fallback

/-- JS truthiness of an optional string field: absent and `""` are falsy. -/
def isTruthyStr : Option String → Bool
  | none => false
  | some s => s != ""

/-- The body of a `POST /api/notify` request; each field may be absent. -/
structure NotifyRequest where
  conversationId : Option String
  message : Option String
  replyToId : Option String
  mentions : Option (List Mention)
  deriving Repr, DecidableEq

/-- The JSON response of `POST /api/notify`: 400, 404, 200 or 500. -/
inductive NotifyResponse where
  | badRequest (error : String)
  | notFound (error : String) (knownConversations : List String)
  | sent (activityId : String)
  | serverError (error : String)
  deriving Repr, DecidableEq

/-- The observable outcome of one `POST /api/notify` dispatch: the response,
and the single `app.http.send` call made, if any (payload and reference). -/
structure NotifyOutcome where
  response : NotifyResponse
  sendAttempt : Option (ActivityParams × ConversationReference)
  deriving Repr, DecidableEq

/-- The reference actually sent against: the thread-scoped copy when
`replyToId` is truthy (`if (replyToId)`), the cached reference otherwise. -/
def effectiveRef (replyToId : Option String) (ref : ConversationReference) :
    ConversationReference :=
  if isTruthyStr replyToId then threadRefOf ref (replyToId.getD "") else ref

/-- The `POST /api/notify` handler.  `send` is the external
`app.http.send` primitive; a throw is an `Except.error`.  The handler reads
the reference registry and never writes it, so the registry is threaded
through unchanged on every path. -/
def notifyHandler
    (send : ActivityParams → ConversationReference → Except SendErr SendResult)
    (req : NotifyRequest) (refs : List (String × ConversationReference)) :
    NotifyOutcome × List (String × ConversationReference) :=
  if !(isTruthyStr req.conversationId) || !(isTruthyStr req.message) then
    ({ response := .badRequest "conversationId and message are required",
       sendAttempt := none }, refs)
  else
    match mapGet (req.conversationId.getD "") refs with
    | none =>
      ({ response := .notFound
           "Conversation not found. The bot must receive a message from this conversation first."
           (mapKeys refs),
         sendAttempt := none }, refs)
    | some ref =>
      let params := buildActivityParams (req.message.getD "") req.mentions
      let eref := effectiveRef req.replyToId ref
      match send params eref with
      | .ok result =>
        ({ response := .sent result.id, sendAttempt := some (params, eref) }, refs)
      | .error e =>
        ({ response := .serverError (errMessageOr e "Failed to send message"),
           sendAttempt := some (params, eref) }, refs)

/-- The `GET /api/conversations` handler: for every registry entry in order,
the conversation id, the conversation type and the service URL. -/
def listConversations (refs : List (String × ConversationReference)) :
    List (String × Option String × String) :=
  refs.map (fun e => (e.1, e.2.conversation.conversationType, e.2.serviceUrl))

/-! Map lemmas. -/

theorem mapGet_mapSet_self {α : Type} (k : String) (v : α) (m : List (String × α)) :
    mapGet k (mapSet k v m) = some v := by
  induction m with
  | nil => simp [mapSet, mapGet]
  | cons e rest ih =>
    by_cases h : e.1 = k
    · simp [mapSet, mapGet, h]
    · simp [mapSet, mapGet, h, ih]

theorem mapGet_mapSet_ne {α : Type} (k k₂ : String) (v : α) (m : List (String × α))
    (h : k₂ ≠ k) : mapGet k₂ (mapSet k v m) = mapGet k₂ m := by
  induction m with
  | nil => simp [mapSet, mapGet, Ne.symm h]
  | cons e rest ih =>
    by_cases he : e.1 = k
    · simp [mapSet, mapGet, he, Ne.symm h]
    · simp [mapSet, mapGet, he, ih]

theorem mapGet_mapDelete_self {α : Type} (k : String) (m : List (String × α)) :
    mapGet k (mapDelete k m) = none := by
  induction m with
  | nil => rfl
  | cons e rest ih =>
    by_cases h : e.1 = k
    · simpa [mapDelete, List.filter_cons, h] using ih
    · simpa [mapDelete, List.filter_cons, h, mapGet] using ih

/-- The state fetched right after a delete of the same key is the fresh
`{count: 0}` record. -/
theorem getConversationState_after_delete (c : String)
    (storage : List (String × ConversationState)) :
    (getConversationState c (mapDelete c storage)).1 = ⟨0⟩ := by
  simp [getConversationState, mapGet_mapDelete_self]

/-- Every branch of the message handler stores the event reference under the
activity conversation id before dispatching. -/
theorem handleMessage_refs (nodeVersion : String) (a : Activity) (text : String)
    (ref : ConversationReference) (s : AppState) :
    (handleMessage nodeVersion a text ref s).1.refs = mapSet a.conversationId ref s.refs := by
  unfold handleMessage
  split_ifs <;> rfl

/-- A concrete cached reference used by witnesses and counterexamples. -/
def sampleRef : ConversationReference :=
  { conversation := { id := "abc", conversationType := some "channel" },
    serviceUrl := "https://smba.example/emea/" }

/-- Claim C2: after any inbound event (install or message) for a
conversation, the reference registry entry for that conversation is present
and equals the routing metadata carried by that latest event: both handlers
unconditionally overwrite the entry with the event reference. -/
theorem inbound_event_upserts_reference (c : String) (ref : ConversationReference)
    (s : AppState) (nodeVersion : String) (a : Activity) (text : String)
    (s₂ : AppState) :
    mapGet c (installAdd c ref s).refs = some ref
    ∧ mapGet a.conversationId (handleMessage nodeVersion a text ref s₂).1.refs = some ref := by
  constructor
  · simp [installAdd, mapGet_mapSet_self]
  · rw [handleMessage_refs]
    exact mapGet_mapSet_self _ _ _

/-- Helper: the echo branch replies `[<n+1>] you said: <text>` and stores
count `n + 1`, where `n` is the fetched-or-initialized pre-state count. -/
theorem echo_effect (nodeVersion : String) (a : Activity) (text : String)
    (ref : ConversationReference) (s : AppState)
    (h₁ : text ≠ "/reset") (h₂ : text ≠ "/count") (h₃ : text ≠ "/diag")
    (h₄ : text ≠ "/state") (h₅ : text ≠ "/runtime") :
    (handleMessage nodeVersion a text ref s).2
      = "[" ++ toString ((getConversationState a.conversationId s.storage).1.count + 1)
        ++ "] you said: " ++ text
    ∧ mapGet a.conversationId (handleMessage nodeVersion a text ref s).1.storage
      = some ⟨(getConversationState a.conversationId s.storage).1.count + 1⟩ := by
  simp [handleMessage, h₁, h₂, h₃, h₄, h₅, mapGet_mapSet_self]

/-- Claim C3: an inbound message matching none of the five commands
fetches-or-initializes the conversation state, stores a count exactly one
above the pre-state count, and replies with
`[<new count>] you said: <text>`. -/
theorem default_echo_increments (nodeVersion : String) (a : Activity) (text : String)
    (ref : ConversationReference) (s : AppState)
    (h₁ : text ≠ "/reset") (h₂ : text ≠ "/count") (h₃ : text ≠ "/diag")
    (h₄ : text ≠ "/state") (h₅ : text ≠ "/runtime") :
    (handleMessage nodeVersion a text ref s).2
      = "[" ++ toString ((getConversationState a.conversationId s.storage).1.count + 1)
        ++ "] you said: " ++ text
    ∧ mapGet a.conversationId (handleMessage nodeVersion a text ref s).1.storage
      = some ⟨(getConversationState a.conversationId s.storage).1.count + 1⟩ :=
  echo_effect nodeVersion a text ref s h₁ h₂ h₃ h₄ h₅

theorem default_echo_increments_witness :
    (handleMessage "v20" ⟨"abc", "j"⟩ "hello" sampleRef ⟨[], []⟩).2
      = "[" ++ toString ((getConversationState "abc"
          ([] : List (String × ConversationState))).1.count + 1)
        ++ "] you said: " ++ "hello"
    ∧ mapGet "abc" (handleMessage "v20" ⟨"abc", "j"⟩ "hello" sampleRef ⟨[], []⟩).1.storage
      = some ⟨(getConversationState "abc"
          ([] : List (String × ConversationState))).1.count + 1⟩ :=
  default_echo_increments "v20" ⟨"abc", "j"⟩ "hello" sampleRef ⟨[], []⟩
    (by decide) (by decide) (by decide) (by decide) (by decide)

/-- Claim C5: `/reset` deletes the conversation state and replies with the
confirmation text, and a `/count` handled immediately afterwards for the
same conversation reports count 0, for every prior state. -/
theorem reset_then_count (nodeVersion₁ nodeVersion₂ c j₁ j₂ : String)
    (ref₁ ref₂ : ConversationReference) (s : AppState) :
    (handleMessage nodeVersion₁ ⟨c, j₁⟩ "/reset" ref₁ s).2
      = "Ok I\x27ve deleted the current conversation state."
    ∧ mapGet c (handleMessage nodeVersion₁ ⟨c, j₁⟩ "/reset" ref₁ s).1.storage = none
    ∧ (handleMessage nodeVersion₂ ⟨c, j₂⟩ "/count" ref₂
         (handleMessage nodeVersion₁ ⟨c, j₁⟩ "/reset" ref₁ s).1).2
      = "The count is 0" := by
  refine ⟨rfl, ?_, ?_⟩
  · simp [handleMessage, mapGet_mapDelete_self]
  · simp [handleMessage, getConversationState, mapGet_mapDelete_self]
    rfl

/-- Claim C9: the echo branch's increment is visible to the store (the
source increments the stored record in place through the alias returned by
`getConversationState`), so an echo message followed by `/count` on the same
conversation reports the incremented count. -/
theorem echo_then_count (nodeVersion₁ nodeVersion₂ c j₁ j₂ : String) (text : String)
    (ref₁ ref₂ : ConversationReference) (s : AppState)
    (h₁ : text ≠ "/reset") (h₂ : text ≠ "/count") (h₃ : text ≠ "/diag")
    (h₄ : text ≠ "/state") (h₅ : text ≠ "/runtime") :
    (handleMessage nodeVersion₂ ⟨c, j₂⟩ "/count" ref₂
       (handleMessage nodeVersion₁ ⟨c, j₁⟩ text ref₁ s).1).2
      = "The count is "
        ++ toString ((getConversationState c s.storage).1.count + 1) := by
  have hstore := (echo_effect nodeVersion₁ ⟨c, j₁⟩ text ref₁ s
    h₁ h₂ h₃ h₄ h₅).2
  generalize hg : (handleMessage nodeVersion₁ ⟨c, j₁⟩ text ref₁ s).1 = s₁ at hstore ⊢
  simp [handleMessage, getConversationState, hstore]

theorem echo_then_count_witness :
    (handleMessage "v21" ⟨"abc", "j2"⟩ "/count" sampleRef
       (handleMessage "v20" ⟨"abc", "j1"⟩ "hi" sampleRef ⟨[], []⟩).1).2
      = "The count is "
        ++ toString ((getConversationState "abc"
            ([] : List (String × ConversationState))).1.count + 1) :=
  echo_then_count "v20" "v21" "abc" "j1" "j2" "hi" sampleRef sampleRef ⟨[], []⟩
    (by decide) (by decide) (by decide) (by decide) (by decide)

/-- Claim C4 counterexample: handling `/count` for a conversation with no
stored state does mutate the ConversationStateStore — `getConversationState`
initializes and stores `{count: 0}`, so the set of stored conversation
identifiers grows from empty to `{"abc"}`. -/
theorem count_on_fresh_conversation_mutates_store :
    (handleMessage "v20" ⟨"abc", "j"⟩ "/count" sampleRef ⟨[], []⟩).1.storage
      = [("abc", ⟨0⟩)]
    ∧ (handleMessage "v20" ⟨"abc", "j"⟩ "/count" sampleRef ⟨[], []⟩).1.storage
      ≠ (⟨[], []⟩ : AppState).storage := by
  constructor <;> decide

/-- Claim C4 (amended): handling `/count` replies with the current
(fetched-or-initialized) count and changes no stored count: every other
conversation's entry is untouched, the triggering conversation's entry holds
exactly the reported count, and when state already existed the store is
identical before and after. -/
theorem count_preserves_counts (nodeVersion : String) (a : Activity)
    (ref : ConversationReference) (s : AppState) :
    (handleMessage nodeVersion a "/count" ref s).2
      = "The count is " ++ toString ((getConversationState a.conversationId s.storage).1.count)
    ∧ (∀ c₂, c₂ ≠ a.conversationId →
        mapGet c₂ (handleMessage nodeVersion a "/count" ref s).1.storage
          = mapGet c₂ s.storage)
    ∧ mapGet a.conversationId (handleMessage nodeVersion a "/count" ref s).1.storage
      = some ⟨(getConversationState a.conversationId s.storage).1.count⟩
    ∧ (∀ st, mapGet a.conversationId s.storage = some st →
        (handleMessage nodeVersion a "/count" ref s).1.storage = s.storage) := by
  cases hg : mapGet a.conversationId s.storage with
  | some st =>
    refine ⟨by simp [handleMessage], ?_, ?_, ?_⟩
    · intro c₂ _
      simp [handleMessage, getConversationState, hg]
    · simp [handleMessage, getConversationState, hg]
    · intro st₂ _
      simp [handleMessage, getConversationState, hg]
  | none =>
    refine ⟨by simp [handleMessage], ?_, ?_, ?_⟩
    · intro c₂ hne
      simp [handleMessage, getConversationState, hg, mapGet_mapSet_ne _ _ _ _ hne]
    · simp [handleMessage, getConversationState, hg, mapGet_mapSet_self]
    · intro st₂ habs
      simp at habs

theorem count_preserves_counts_witness :
    (handleMessage "v20" ⟨"abc", "j"⟩ "/count" sampleRef ⟨[("abc", ⟨2⟩)], []⟩).2
      = "The count is 2"
    ∧ (handleMessage "v20" ⟨"abc", "j"⟩ "/count" sampleRef ⟨[("abc", ⟨2⟩)], []⟩).1.storage
      = [("abc", ⟨2⟩)] := by
  have h := count_preserves_counts "v20" ⟨"abc", "j"⟩ sampleRef ⟨[("abc", ⟨2⟩)], []⟩
  refine ⟨?_, h.2.2.2 ⟨2⟩ (by decide)⟩
  rw [h.1]
  rfl

/-! Notify-handler lemmas. -/

theorem isTruthyStr_some_ne (s : String) (h : s ≠ "") : isTruthyStr (some s) = true := by
  simp [isTruthyStr, h]

/-- The notify handler never writes the reference registry: whatever the
request and the send outcome, the registry comes back unchanged. -/
theorem notifyHandler_registry_unchanged
    (send : ActivityParams → ConversationReference → Except SendErr SendResult)
    (req : NotifyRequest) (refs : List (String × ConversationReference)) :
    (notifyHandler send req refs).2 = refs := by
  unfold notifyHandler
  split
  · rfl
  · split
    · rfl
    · dsimp only
      split <;> rfl

/-- With a truthy replyToId, the effective reference is the thread-scoped
copy. -/
theorem effectiveRef_truthy (r : String) (ref : ConversationReference) (h : r ≠ "") :
    effectiveRef (some r) ref = threadRefOf ref r := by
  simp [effectiveRef, isTruthyStr, h]

/-- Claim C1: a notify request with a truthy replyToId delivers against the
thread-scoped copy of the cached reference — conversation id
`<original>;messageid=<replyToId>`, all other fields preserved — while the
registry, and in particular the cached entry for the conversation, is
returned unchanged. -/
theorem notify_threaded_reply
    (send : ActivityParams → ConversationReference → Except SendErr SendResult)
    (c m r : String) (mentions : Option (List Mention))
    (refs : List (String × ConversationReference)) (ref : ConversationReference)
    (hc : c ≠ "") (hm : m ≠ "") (hr : r ≠ "")
    (href : mapGet c refs = some ref) :
    (notifyHandler send ⟨some c, some m, some r, mentions⟩ refs).2 = refs
    ∧ mapGet c (notifyHandler send ⟨some c, some m, some r, mentions⟩ refs).2 = some ref
    ∧ (notifyHandler send ⟨some c, some m, some r, mentions⟩ refs).1.sendAttempt
        = some (buildActivityParams m mentions, threadRefOf ref r)
    ∧ (threadRefOf ref r).conversation.id = ref.conversation.id ++ ";messageid=" ++ r
    ∧ (threadRefOf ref r).serviceUrl = ref.serviceUrl
    ∧ (threadRefOf ref r).conversation.conversationType
        = ref.conversation.conversationType := by
  have heff := effectiveRef_truthy r ref hr
  refine ⟨notifyHandler_registry_unchanged send _ refs, ?_, ?_, rfl, rfl, rfl⟩
  · rw [notifyHandler_registry_unchanged]
    exact href
  · cases hsend : send (buildActivityParams m mentions) (threadRefOf ref r) with
    | ok result =>
      simp [notifyHandler, isTruthyStr_some_ne _ hc, isTruthyStr_some_ne _ hm, href,
        heff, hsend]
    | error e =>
      simp [notifyHandler, isTruthyStr_some_ne _ hc, isTruthyStr_some_ne _ hm, href,
        heff, hsend]

theorem notify_threaded_reply_witness :
    (notifyHandler (fun _ _ => .ok ⟨"a1"⟩) ⟨some "abc", some "hello", some "m1", none⟩
        [("abc", sampleRef)]).2 = [("abc", sampleRef)]
    ∧ mapGet "abc" (notifyHandler (fun _ _ => .ok ⟨"a1"⟩)
        ⟨some "abc", some "hello", some "m1", none⟩ [("abc", sampleRef)]).2
      = some sampleRef
    ∧ (notifyHandler (fun _ _ => .ok ⟨"a1"⟩) ⟨some "abc", some "hello", some "m1", none⟩
        [("abc", sampleRef)]).1.sendAttempt
      = some (buildActivityParams "hello" none, threadRefOf sampleRef "m1")
    ∧ (threadRefOf sampleRef "m1").conversation.id
      = sampleRef.conversation.id ++ ";messageid=" ++ "m1"
    ∧ (threadRefOf sampleRef "m1").serviceUrl = sampleRef.serviceUrl
    ∧ (threadRefOf sampleRef "m1").conversation.conversationType
      = sampleRef.conversation.conversationType :=
  notify_threaded_reply (fun _ _ => .ok ⟨"a1"⟩) "abc" "hello" "m1" none
    [("abc", sampleRef)] sampleRef (by decide) (by decide) (by decide) (by decide)

/-- Claim C6: a well-formed notify request (truthy conversationId and
message) for a conversation absent from the registry gets the 404 response
whose knownConversations list is exactly the current registry keys, and no
send is attempted. -/
theorem notify_unknown_conversation_404
    (send : ActivityParams → ConversationReference → Except SendErr SendResult)
    (c m : String) (replyToId : Option String) (mentions : Option (List Mention))
    (refs : List (String × ConversationReference))
    (hc : c ≠ "") (hm : m ≠ "") (habs : mapGet c refs = none) :
    notifyHandler send ⟨some c, some m, replyToId, mentions⟩ refs
      = ({ response := .notFound
             "Conversation not found. The bot must receive a message from this conversation first."
             (mapKeys refs),
           sendAttempt := none }, refs) := by
  simp [notifyHandler, isTruthyStr_some_ne _ hc, isTruthyStr_some_ne _ hm, habs]

theorem notify_unknown_conversation_404_witness :
    notifyHandler (fun _ _ => .ok ⟨"a1"⟩) ⟨some "zzz", some "hello", none, none⟩
        [("abc", sampleRef)]
      = ({ response := .notFound
             "Conversation not found. The bot must receive a message from this conversation first."
             (mapKeys [("abc", sampleRef)]),
           sendAttempt := none }, [("abc", sampleRef)]) :=
  notify_unknown_conversation_404 (fun _ _ => .ok ⟨"a1"⟩) "zzz" "hello" none none
    [("abc", sampleRef)] (by decide) (by decide) (by decide)

/-- Claim C7: for a well-formed notify request with a cached reference,
exactly one send is attempted (the recorded attempt, never retried); when the
send primitive returns successfully the response is 200 `sent` carrying the
delivered message id, and when it throws with a truthy message the response
is 500 carrying that message text. -/
theorem notify_delivery_result
    (send : ActivityParams → ConversationReference → Except SendErr SendResult)
    (c m : String) (replyToId : Option String) (mentions : Option (List Mention))
    (refs : List (String × ConversationReference)) (ref : ConversationReference)
    (hc : c ≠ "") (hm : m ≠ "") (href : mapGet c refs = some ref) :
    (notifyHandler send ⟨some c, some m, replyToId, mentions⟩ refs).1.sendAttempt
      = some (buildActivityParams m mentions, effectiveRef replyToId ref)
    ∧ (∀ result, send (buildActivityParams m mentions) (effectiveRef replyToId ref)
          = .ok result →
        (notifyHandler send ⟨some c, some m, replyToId, mentions⟩ refs).1.response
          = .sent result.id)
    ∧ (∀ e em, send (buildActivityParams m mentions) (effectiveRef replyToId ref)
          = .error e →
        e.message = some em → em ≠ "" →
        (notifyHandler send ⟨some c, some m, replyToId, mentions⟩ refs).1.response
          = .serverError em) := by
  refine ⟨?_, ?_, ?_⟩
  · cases hsend : send (buildActivityParams m mentions) (effectiveRef replyToId ref) <;>
      simp [notifyHandler, isTruthyStr_some_ne _ hc, isTruthyStr_some_ne _ hm, href, hsend]
  · intro result hsend
    simp [notifyHandler, isTruthyStr_some_ne _ hc, isTruthyStr_some_ne _ hm, href, hsend]
  · intro e em hsend hmsg hne
    simp [notifyHandler, isTruthyStr_some_ne _ hc, isTruthyStr_some_ne _ hm, href, hsend,
      errMessageOr, hmsg, hne]

theorem notify_delivery_result_witness :
    (notifyHandler (fun _ _ => .ok ⟨"a1"⟩) ⟨some "abc", some "hello", none, none⟩
        [("abc", sampleRef)]).1.sendAttempt
      = some (buildActivityParams "hello" none, effectiveRef none sampleRef)
    ∧ (notifyHandler (fun _ _ => .ok ⟨"a1"⟩) ⟨some "abc", some "hello", none, none⟩
        [("abc", sampleRef)]).1.response = .sent "a1" := by
  have h := notify_delivery_result (fun _ _ => .ok ⟨"a1"⟩) "abc" "hello" none none
    [("abc", sampleRef)] sampleRef (by decide) (by decide) (by decide)
  exact ⟨h.1, h.2.1 ⟨"a1"⟩ rfl⟩

/-- Claim C8: the notify validation rejects with a 400 (and attempts no
send) whenever conversationId or message is falsy — absent or present with
the empty string. -/
theorem notify_falsy_field_400
    (send : ActivityParams → ConversationReference → Except SendErr SendResult)
    (req : NotifyRequest) (refs : List (String × ConversationReference))
    (h : isTruthyStr req.conversationId = false ∨ isTruthyStr req.message = false) :
    notifyHandler send req refs
      = ({ response := .badRequest "conversationId and message are required",
           sendAttempt := none }, refs) := by
  rcases h with h | h <;> simp [notifyHandler, h]

theorem notify_falsy_field_400_witness :
    notifyHandler (fun _ _ => .ok ⟨"a1"⟩) ⟨some "abc", some "", none, none⟩
        [("abc", sampleRef)]
      = ({ response := .badRequest "conversationId and message are required",
           sendAttempt := none }, [("abc", sampleRef)]) :=
  notify_falsy_field_400 (fun _ _ => .ok ⟨"a1"⟩) ⟨some "abc", some "", none, none⟩
    [("abc", sampleRef)] (Or.inr (by decide))

/-- Claim C10: when the send primitive throws with an absent or empty
message, the 500 response carries the fixed fallback text
`Failed to send message`. -/
theorem notify_send_failure_fallback
    (send : ActivityParams → ConversationReference → Except SendErr SendResult)
    (c m : String) (replyToId : Option String) (mentions : Option (List Mention))
    (refs : List (String × ConversationReference)) (ref : ConversationReference)
    (e : SendErr)
    (hc : c ≠ "") (hm : m ≠ "") (href : mapGet c refs = some ref)
    (hsend : send (buildActivityParams m mentions) (effectiveRef replyToId ref)
      = .error e)
    (hmsg : e.message = none ∨ e.message = some "") :
    (notifyHandler send ⟨some c, some m, replyToId, mentions⟩ refs).1.response
      = .serverError "Failed to send message" := by
  rcases hmsg with hmsg | hmsg <;>
    simp [notifyHandler, isTruthyStr_some_ne _ hc, isTruthyStr_some_ne _ hm, href, hsend,
      errMessageOr, hmsg]

theorem notify_send_failure_fallback_witness :
    (notifyHandler (fun _ _ => .error ⟨none⟩) ⟨some "abc", some "hello", none, none⟩
        [("abc", sampleRef)]).1.response
      = .serverError "Failed to send message" :=
  notify_send_failure_fallback (fun _ _ => .error ⟨none⟩) "abc" "hello" none none
    [("abc", sampleRef)] sampleRef ⟨none⟩ (by decide) (by decide) (by decide) rfl
    (Or.inl rfl)

end ProactiveBot
